import Mathlib

/-!
Shallow embedding of the OCR service in `src/app.py` (a single-endpoint Flask
application): upload validation, bounded image normalization, OCR invocation,
text aggregation, keyword classification, and the per-request orchestrator
with its cleanup discipline.

Modelling conventions:
* Python strings are Lean `String`s, and the Python string primitives the
  code uses are given structurally recursive definitions over the
  character list of the string (so that the kernel can evaluate them on
  concrete inputs): `str.lower()` is `pyLower` (the keyword sets are pure
  ASCII), the substring test `k in s` is `occursIn k s`, `" ".join(xs)` is
  `pyJoin " " xs`, and `str.strip()` is `pyStrip`.
* Python float arithmetic in `downscale_image` is modelled exactly over the
  rationals: `scale = min(1.0, 1600 / max(w, h))` satisfies `scale < 1.0`
  iff `1600 < max w h`, and `int(w * scale)` (truncation toward zero of a
  positive value) is the natural-number division `(1600 * w) / max w h`.
* The filesystem slot for one request is a single abstract cell: saving
  makes it exist, `os.remove` succeeds, and the bytes in it are a
  `StoredImage` (decoded dimensions when PIL can open them, plus an
  abstract byte identity that records re-encodings).
* The OCR engine is an external collaborator: its behaviour on one request
  is an `OcrOutcome` oracle (a detection list, or a raised exception
  message), passed to the orchestrator as a parameter.
-/

namespace OCRApp

/-- Python `str.lower()` character by character (ASCII-lowering; the keyword
sets and filename extensions compared with it are pure ASCII). -/
def pyLower (s : String) : String :=
  ⟨s.data.map Char.toLower⟩

/-- Python `sep.join(xs)`: the strings of `xs` concatenated with `sep`
between consecutive elements. -/
def pyJoin (sep : String) : List String → String
  | [] => ""
  | [s] => s
  | s :: rest => s ++ sep ++ pyJoin sep rest

/-- Python `str.strip()`: the string without its leading and trailing
whitespace characters. -/
def pyStrip (s : String) : String :=
  ⟨((s.data.dropWhile Char.isWhitespace).reverse.dropWhile Char.isWhitespace).reverse⟩

/-- The characters after the last occurrence of `sep`, or `none` when `sep`
does not occur: the tail component of Python `rsplit(sep, 1)`. -/
def afterLast (sep : Char) : List Char → Option (List Char)
  | [] => none
  | c :: rest =>
    match afterLast sep rest with
    | some t => some t
    | none => if c == sep then some rest else none

/-- `ALLOWED_EXTENSIONS = {'png', 'jpg', 'jpeg'}` from app.py line 16. -/
def ALLOWED_EXTENSIONS : List String := ["png", "jpg", "jpeg"]

/-- `allowed_file` from app.py lines 38-39:
`bool(filename) and '.' in filename and filename.rsplit('.', 1)[1].lower() in ALLOWED_EXTENSIONS`.
`rsplit('.', 1)[1]` is the segment after the last dot (`afterLast`, whose
default is never taken under the `'.' in filename` guard). -/
def allowed_file (filename : String) : Bool :=
  (!(filename == "")) && filename.data.contains '.' &&
    ALLOWED_EXTENSIONS.contains (pyLower ⟨(afterLast '.' filename.data).getD []⟩)

/-- Bool test that `pat` starts the list `l` (character-by-character). -/
def leadsWith : List Char → List Char → Bool
  | [], _ => true
  | _ :: _, [] => false
  | a :: as, b :: bs => a == b && leadsWith as bs

/-- Bool test that `pat` occurs contiguously somewhere in `l`. -/
def hasSub (pat : List Char) : List Char → Bool
  | [] => pat.isEmpty
  | c :: rest => leadsWith pat (c :: rest) || hasSub pat rest

/-- Python's substring membership `pat in s` on strings. -/
def occursIn (pat s : String) : Bool :=
  hasSub pat.data s.data

/-- Group A keywords (app.py line 98): a hit classifies as "Birth Certificate". -/
def groupA : List String := ["birth certificate", "child", "registry", "philippine statistics"]

/-- Group B keywords (app.py line 100): a hit classifies as "Identification Card". -/
def groupB : List String := ["id", "republic", "philippines", "national id", "license", "passport"]

/-- The classification logic of app.py lines 96-103: lowercase the text, then
ordered keyword groups with first match winning (`any(k in lower_text for k in …)`). -/
def classify (text : String) : String :=
  if groupA.any (fun k => occursIn k (pyLower text)) then "Birth Certificate"
  else if groupB.any (fun k => occursIn k (pyLower text)) then "Identification Card"
  else "Unknown"

/-- One raw OCR detection: the engine returns a tuple per region (geometry,
text, confidence); only its length and the element at index 1 (the recognized
text) are ever consumed by the core, so the tuple is modelled as a list whose
index-1 element is the recognized text when `1 < length`. -/
abbrev Detection := List String

/-- Text aggregation of app.py lines 93-94:
`extracted_text = [det[1] for det in result if len(det) > 1]` followed by
`" ".join(extracted_text).strip()`. -/
def aggregate (result : List Detection) : String :=
  pyStrip (pyJoin " " ((result.filter fun det => 1 < det.length).map
    fun det => det.getD 1 ""))

/-- Abstract identity of the bytes sitting in the request's storage slot.
`raw` is as uploaded; `jpeg85 w h src` records the overwrite performed by
`img.save(path, format='JPEG', quality=85)` after decoding `src`, converting
to three-channel RGB and (possibly) resizing to `w × h`. -/
inductive Bytes where
  | raw (id : Nat)
  | jpeg85 (w h : Nat) (src : Bytes)
deriving DecidableEq

/-- The stored uploaded image: the dimensions PIL reports after
`Image.open(path)` + `convert('RGB')` (`none` when opening/decoding raises),
and the abstract identity of the stored bytes. -/
structure StoredImage where
  decoded : Option (Nat × Nat)
  bytes : Bytes
deriving DecidableEq

/-- `downscale_image` from app.py lines 42-53, returning the stored image
after the call together with the warning message it logs when the body
raises (`except Exception: print("⚠️ Downscale failed: …")`).  A decode
failure, or the `ZeroDivisionError` from `max_dim / max(w, h)` when both
dimensions are zero, is swallowed and leaves the slot untouched; otherwise
`scale = min(1.0, 1600 / max(w, h))`, the image is resized to
`(int(w*scale), int(h*scale))` exactly when `scale < 1.0` (i.e. when
`1600 < max w h`; `int` truncates, giving natural division), and the result
is re-encoded over the slot as JPEG quality 85. -/
def downscale_image (img : StoredImage) : StoredImage × Option String :=
  match img.decoded with
  | none => (img, some "Downscale failed")
  | some (w, h) =>
    if max w h = 0 then (img, some "Downscale failed")
    else if 1600 < max w h then
      ({ decoded := some ((1600 * w) / max w h, (1600 * h) / max w h),
         bytes := .jpeg85 ((1600 * w) / max w h) ((1600 * h) / max w h) img.bytes }, none)
    else
      ({ decoded := some (w, h), bytes := .jpeg85 w h img.bytes }, none)

/-- One incoming request to `POST /ocr` as the endpoint observes it:
whether a part named `image` is present in `request.files`, the declared
filename of that part, and the image bytes that land in the storage slot
if the part is saved. -/
structure Request where
  hasImagePart : Bool
  filename : String
  stored : StoredImage
deriving DecidableEq

/-- What `reader.readtext(file_path)` does on this request: return a list
of detections, or raise an exception carrying a message. -/
inductive OcrOutcome where
  | ok (result : List Detection)
  | raise (msg : String)
deriving DecidableEq

/-- The JSON body of a response from the endpoint: either an error object
or the success object of app.py lines 105-109 (whose `fields` mapping is the
constant placeholder `{"example_field": "Sample extracted info"}`). -/
inductive RespBody where
  | err (msg : String)
  | success (document_type : String) (text : String)
deriving DecidableEq

/-- An HTTP response: status code plus JSON body. -/
structure Response where
  status : Nat
  body : RespBody
deriving DecidableEq

/-- The `finally` clause of app.py lines 113-118:
`if os.path.exists(file_path): os.remove(file_path)` (removal errors are
swallowed; removal itself is assumed to succeed at the storage collaborator). -/
def removeIfThere (fileThere : Bool) : Bool :=
  if fileThere then false else fileThere

/-- Everything observable about one run of the endpoint: the response, whether
the uploaded image was saved into the storage slot, and whether that slot still
holds a file once the response is produced. -/
structure OcrRun where
  response : Response
  fileSaved : Bool
  fileThereAfter : Bool
deriving DecidableEq

/-- The `/ocr` endpoint `ocr_image` of app.py lines 68-118.  `reader` is the
process-wide engine handle (`none` when startup initialization failed, app.py
lines 26-32); `outcome` is the engine oracle for this request.  Paths:
engine-unavailable and the three validation failures return before the slot is
touched; otherwise the file is saved, `downscale_image` rewrites the slot
in place (its result feeds the engine, here abstracted by `outcome`), the
`try` block either classifies the aggregated text (HTTP 200) or is caught by
`except` (HTTP 500 with the exception message), and the `finally` clause
removes the slot on every one of those exits. -/
def ocr_image (reader : Option Unit) (req : Request) (outcome : OcrOutcome) : OcrRun :=
  match reader with
  | none => ⟨⟨500, .err "OCR model not initialized"⟩, false, false⟩
  | some _ =>
    if req.hasImagePart = false then ⟨⟨400, .err "No image uploaded"⟩, false, false⟩
    else if req.filename = "" then ⟨⟨400, .err "Empty filename"⟩, false, false⟩
    else if allowed_file req.filename = false then
      ⟨⟨400, .err "Only PNG and JPG images are allowed"⟩, false, false⟩
    else
      let fileThere := true
      let _slot := (downscale_image req.stored).1
      let response : Response :=
        match outcome with
        | .ok result =>
          let text := aggregate result
          let doc_type := classify text
          ⟨200, .success doc_type text⟩
        | .raise msg => ⟨500, .err msg⟩
      ⟨response, true, removeIfThere fileThere⟩

/-- The module-level engine initialization of app.py lines 26-32: on success
the handle is the reader object, on any exception it is `None`. -/
def initReader (startup : Except String Unit) : Option Unit :=
  match startup with
  | .ok _ => some ()
  | .error _ => none

/-- Round-to-nearest of the fraction `p / q` (halves rounding up): the value
`round(p / q)` that the specification's resize formula names, for comparison
with the truncation the code performs. -/
def roundNearest (p q : Nat) : Nat :=
  (2 * p + q) / (2 * q)

/-- C2: any text whose lowercased form contains a Group A keyword classifies
as "Birth Certificate" (Group A is checked strictly before Group B, so this
holds even when Group B keywords also occur), and in particular
`classify "Philippine Statistics Authority Birth Certificate of John"`
is "Birth Certificate". -/
theorem classify_groupA_wins :
    (∀ text : String, (∃ k ∈ groupA, occursIn k (pyLower text) = true) →
      classify text = "Birth Certificate") ∧
    classify "Philippine Statistics Authority Birth Certificate of John" = "Birth Certificate" := by
  refine ⟨?_, by decide⟩
  intro text hk
  have h : groupA.any (fun k => occursIn k (pyLower text)) = true := by
    rw [List.any_eq_true]
    obtain ⟨k, hk1, hk2⟩ := hk
    exact ⟨k, hk1, by simp [hk2]⟩
  simp [classify, h]

/-- Witness for `classify_groupA_wins`: a text containing both a Group A
keyword ("child") and Group B keywords ("id", "republic") still classifies
as "Birth Certificate". -/
theorem classify_groupA_wins_witness :
    classify "republic id child registry" = "Birth Certificate" :=
  classify_groupA_wins.1 "republic id child registry" ⟨"child", by decide, by decide⟩

/-- C3: when no Group A keyword occurs in the lowercased text, the result is
"Identification Card" exactly when some Group B keyword occurs as a substring
and "Unknown" otherwise; `classify "" = "Unknown"`; and matching is by
substring, so "id" occurs inside "identification". -/
theorem classify_groupB_or_unknown :
    (∀ text : String, (∀ k ∈ groupA, occursIn k (pyLower text) = false) →
      ((classify text = "Identification Card" ↔
          ∃ k ∈ groupB, occursIn k (pyLower text) = true) ∧
       (classify text = "Unknown" ↔
          ∀ k ∈ groupB, occursIn k (pyLower text) = false))) ∧
    classify "" = "Unknown" ∧
    occursIn "id" "identification" = true := by
  refine ⟨?_, by decide, by decide⟩
  intro text hA
  have hA' : groupA.any (fun k => occursIn k (pyLower text)) = false := by
    rw [List.any_eq_false]
    intro k hk
    simp [hA k hk]
  cases hB : groupB.any (fun k => occursIn k (pyLower text)) with
  | true =>
    have hcl : classify text = "Identification Card" := by simp [classify, hA', hB]
    rw [hcl]
    obtain ⟨k, hk1, hk2⟩ := List.any_eq_true.mp hB
    constructor
    · exact ⟨fun _ => ⟨k, hk1, hk2⟩, fun _ => rfl⟩
    · constructor
      · intro hcontra; exact absurd hcontra (by decide)
      · intro hall; exact absurd hk2 (by simp [hall k hk1])
  | false =>
    have hB' : ∀ k ∈ groupB, occursIn k (pyLower text) = false := by
      intro k hk
      have := List.any_eq_false.mp hB k hk
      simpa using this
    have hcl : classify text = "Unknown" := by simp [classify, hA', hB]
    rw [hcl]
    constructor
    · constructor
      · intro hcontra; exact absurd hcontra (by decide)
      · rintro ⟨k, hk1, hk2⟩; exact absurd hk2 (by simp [hB' k hk1])
    · exact ⟨fun _ => hB', fun _ => rfl⟩

/-- Witness for `classify_groupB_or_unknown`: "identification" contains no
Group A keyword, and classifies as "Identification Card" because the Group B
keyword "id" occurs inside the larger word. -/
theorem classify_groupB_or_unknown_witness :
    classify "identification" = "Identification Card" :=
  ((classify_groupB_or_unknown.1 "identification" (by decide)).1).mpr
    ⟨"id", by decide, by decide⟩

/-- C5: aggregation keeps exactly the detections with a text field (index 1
populated, i.e. length above 1), joins their texts with single spaces in
engine order and strips the ends; the empty detection list and a list of
only text-less detections both give the empty string. -/
theorem aggregate_spec :
    aggregate [] = "" ∧
    (∀ result : List Detection, (∀ det ∈ result, ¬ 1 < det.length) →
      aggregate result = "") ∧
    (∀ result : List Detection,
      aggregate result = pyStrip (pyJoin " "
        ((result.filter fun det => 1 < det.length).map fun det => det.getD 1 ""))) ∧
    aggregate [["bb", "hello", "0.9"], ["bb"], ["bb", "world", "0.8"]] = "hello world" := by
  refine ⟨by decide, ?_, fun result => rfl, by decide⟩
  intro result h
  have hfil : result.filter (fun det => decide (1 < det.length)) = [] := by
    rw [List.filter_eq_nil_iff]
    intro det hdet
    simpa using h det hdet
  simp [aggregate, hfil, pyJoin, pyStrip]

/-- Witness for `aggregate_spec`: a single detection with no text field is
dropped and the aggregate is empty. -/
theorem aggregate_spec_witness : aggregate [["bbox"]] = "" :=
  aggregate_spec.2.1 [["bbox"]] (by decide)

/-- C6: for a request with a file part and a non-empty filename, the
validator rejects ("Only PNG and JPG images are allowed", HTTP 400) exactly
when the filename has no dot or its lowercased last-dot extension is outside
{png, jpg, jpeg}; and the acceptance decision reads the filename only, never
the file's content bytes (identical filenames give the identical save
decision whatever bytes are uploaded). -/
theorem allowed_file_spec :
    (∀ filename : String, filename ≠ "" →
      (allowed_file filename = false ↔
        (filename.data.contains '.' = false ∨
         ALLOWED_EXTENSIONS.contains (pyLower ⟨(afterLast '.' filename.data).getD []⟩) = false))) ∧
    (∀ (req : Request) (o : OcrOutcome), req.hasImagePart = true → req.filename ≠ "" →
      ((ocr_image (some ()) req o).response =
          ⟨400, RespBody.err "Only PNG and JPG images are allowed"⟩ ↔
        allowed_file req.filename = false)) ∧
    (∀ (r : Option Unit) (f : String) (s₁ s₂ : StoredImage) (o₁ o₂ : OcrOutcome),
      (ocr_image r ⟨true, f, s₁⟩ o₁).fileSaved = (ocr_image r ⟨true, f, s₂⟩ o₂).fileSaved) := by
  refine ⟨?_, ?_, ?_⟩
  · intro f hf
    have hne : (f == "") = false := by
      rw [beq_eq_false_iff_ne]
      exact hf
    have hall : allowed_file f =
        (f.data.contains '.' &&
          ALLOWED_EXTENSIONS.contains (pyLower ⟨(afterLast '.' f.data).getD []⟩)) := by
      simp only [allowed_file, hne, Bool.not_false, Bool.true_and]
    rw [hall]
    cases hc : f.data.contains '.' <;>
      cases hext : ALLOWED_EXTENSIONS.contains (pyLower ⟨(afterLast '.' f.data).getD []⟩) <;>
        decide
  · intro req o h1 h2
    cases hval : allowed_file req.filename with
    | false =>
      have hresp : ocr_image (some ()) req o =
          ⟨⟨400, RespBody.err "Only PNG and JPG images are allowed"⟩, false, false⟩ := by
        simp [ocr_image, h1, h2, hval]
      rw [hresp]
      simp [hval]
    | true =>
      have hne : ¬ allowed_file req.filename = false := by simp [hval]
      cases o with
      | ok result =>
        have hresp : (ocr_image (some ()) req (.ok result)).response =
            ⟨200, RespBody.success (classify (aggregate result)) (aggregate result)⟩ := by
          simp [ocr_image, h1, h2, hval]
        rw [hresp]
        simp
      | raise msg =>
        have hresp : (ocr_image (some ()) req (.raise msg)).response =
            ⟨500, RespBody.err msg⟩ := by
          simp [ocr_image, h1, h2, hval]
        rw [hresp]
        simp
  · intro r f s₁ s₂ o₁ o₂
    cases r with
    | none => rfl
    | some u =>
      by_cases hf : f = "" <;> by_cases hval : allowed_file f = false <;>
        cases o₁ <;> cases o₂ <;> simp [ocr_image, hf, hval]

/-- Witness for `allowed_file_spec`: "archive.tar.gz" (extension "gz") is
rejected, and a request uploading "doc.pdf" receives the unsupported-type
response. -/
theorem allowed_file_spec_witness :
    allowed_file "archive.tar.gz" = false ∧
    (ocr_image (some ()) ⟨true, "doc.pdf", ⟨some (5, 5), Bytes.raw 1⟩⟩
        (OcrOutcome.ok [])).response =
      ⟨400, RespBody.err "Only PNG and JPG images are allowed"⟩ := by
  constructor
  · exact (allowed_file_spec.1 "archive.tar.gz" (by decide)).mpr (Or.inr (by decide))
  · exact (allowed_file_spec.2.1 ⟨true, "doc.pdf", ⟨some (5, 5), Bytes.raw 1⟩⟩
      (OcrOutcome.ok []) rfl (by decide)).mpr (by decide)

/-- C1: whenever the uploaded image was saved into the storage slot, the slot
no longer holds a file once the endpoint's response is produced, on every
exit path — success, the handled engine exception, or any other outcome the
`except` clause absorbs — because the `finally` clause removes it. -/
theorem cleanup_on_every_exit (reader : Option Unit) (req : Request) (outcome : OcrOutcome)
    (_hsaved : (ocr_image reader req outcome).fileSaved = true) :
    (ocr_image reader req outcome).fileThereAfter = false := by
  unfold ocr_image
  cases reader with
  | none => rfl
  | some u =>
    dsimp only
    split
    · rfl
    · split
      · rfl
      · split
        · rfl
        · rfl

/-- Witness for `cleanup_on_every_exit`: a request whose OCR call raises still
ends with the slot empty. -/
theorem cleanup_on_every_exit_witness :
    (ocr_image (some ()) ⟨true, "scan.jpg", ⟨some (20, 30), Bytes.raw 2⟩⟩
        (OcrOutcome.raise "boom")).fileSaved = true ∧
    (ocr_image (some ()) ⟨true, "scan.jpg", ⟨some (20, 30), Bytes.raw 2⟩⟩
        (OcrOutcome.raise "boom")).fileThereAfter = false :=
  ⟨by decide, cleanup_on_every_exit (some ()) ⟨true, "scan.jpg", ⟨some (20, 30), Bytes.raw 2⟩⟩
    (OcrOutcome.raise "boom") (by decide)⟩

/-- C9: when the engine fails to initialize at startup the handle is `None`,
and every request thereafter — whatever its contents and whatever the engine
oracle would have produced — receives the HTTP 500 "OCR model not
initialized" response; the handle is read-only in the endpoint, so
initialization is never retried. -/
theorem engine_unavailable_fails_fast (e : String) (req : Request) (outcome : OcrOutcome) :
    initReader (Except.error e) = none ∧
    (ocr_image (initReader (Except.error e)) req outcome).response =
      ⟨500, RespBody.err "OCR model not initialized"⟩ :=
  ⟨rfl, rfl⟩

/-- C10: the engine-readiness check precedes all upload validation: with an
uninitialized handle every request gets the engine-unavailable error, and none
of the three validation errors is ever reported — even for a request with no
file part, an empty filename, or an unsupported extension. -/
theorem engine_check_precedes_validation (req : Request) (outcome : OcrOutcome) :
    (ocr_image none req outcome).response = ⟨500, RespBody.err "OCR model not initialized"⟩ ∧
    (ocr_image none req outcome).response.body ≠ RespBody.err "No image uploaded" ∧
    (ocr_image none req outcome).response.body ≠ RespBody.err "Empty filename" ∧
    (ocr_image none req outcome).response.body ≠ RespBody.err "Only PNG and JPG images are allowed" :=
  ⟨rfl, by simp [ocr_image], by simp [ocr_image], by simp [ocr_image]⟩

/-- C4: normalization never aborts the pipeline: on every stored image it
either rewrites the slot with no error, or swallows the failure and leaves
the slot's pre-normalization bytes in place (in particular whenever decoding
fails); and the endpoint's response never depends on the stored bytes the
normalizer touched — given the same engine outcome, requests differing only
in stored content get the identical response, so no normalization error is
ever surfaced. -/
theorem downscale_never_aborts :
    (∀ img : StoredImage, (downscale_image img).2 = none ∨ (downscale_image img).1 = img) ∧
    (∀ img : StoredImage, img.decoded = none →
      downscale_image img = (img, some "Downscale failed")) ∧
    (∀ (r : Option Unit) (req : Request) (o : OcrOutcome) (s₁ s₂ : StoredImage),
      (ocr_image r { req with stored := s₁ } o).response =
      (ocr_image r { req with stored := s₂ } o).response) := by
  refine ⟨?_, ?_, ?_⟩
  · intro img
    cases himg : img.decoded with
    | none => right; simp [downscale_image, himg]
    | some wh =>
      obtain ⟨w, h⟩ := wh
      by_cases h0 : max w h = 0
      · right; simp [downscale_image, himg, h0]
      · left
        simp only [downscale_image, himg, h0, if_false]
        split <;> rfl
  · intro img h
    simp [downscale_image, h]
  · intro r req o s₁ s₂
    cases r with
    | none => rfl
    | some u =>
      by_cases h1 : req.hasImagePart = false <;>
        by_cases h2 : req.filename = "" <;>
          by_cases h3 : allowed_file req.filename = false <;>
            cases o <;> simp [ocr_image, h1, h2, h3]

/-- Witness for `downscale_never_aborts`: a stored file PIL cannot decode is
left untouched, with only a logged warning. -/
theorem downscale_never_aborts_witness :
    downscale_image ⟨none, Bytes.raw 7⟩ = (⟨none, Bytes.raw 7⟩, some "Downscale failed") :=
  downscale_never_aborts.2.1 ⟨none, Bytes.raw 7⟩ rfl

/-- C7 counterexample: the code truncates with `int(...)`, it does not round.
At decoded dimensions 3201 × 3202 the exact scaled width is
`1600 * 3201 / 3202 = 1599.50031…`: the code stores width 1599, while the
claimed `round(w * scale)` is 1600. -/
theorem downscale_truncates_counterexample :
    (downscale_image ⟨some (3201, 3202), Bytes.raw 0⟩).1.decoded.map Prod.fst = some 1599 ∧
    roundNearest (1600 * 3201) 3202 = 1600 ∧
    (downscale_image ⟨some (3201, 3202), Bytes.raw 0⟩).1.decoded.map Prod.fst ≠
      some (roundNearest (1600 * 3201) 3202) := by
  decide

/-- C7 (amended): for a decoded image with `1600 < max w h` (i.e.
`scale = min(1.0, 1600 / max(w, h)) < 1.0`), the image is resized to exactly
`(⌊w * scale⌋, ⌊h * scale⌋)` — Python's `int()` truncates the scaled values —
and both output dimensions are at most 1600. -/
theorem downscale_dims_floor (img : StoredImage) (w h : Nat)
    (hdec : img.decoded = some (w, h)) (hbig : 1600 < max w h) :
    (downscale_image img).1.decoded =
      some ((1600 * w) / max w h, (1600 * h) / max w h) ∧
    (1600 * w) / max w h ≤ 1600 ∧ (1600 * h) / max w h ≤ 1600 := by
  have hm : 0 < max w h := lt_trans (by norm_num) hbig
  have hm0 : ¬ max w h = 0 := Nat.pos_iff_ne_zero.mp hm
  refine ⟨by simp [downscale_image, hdec, hm0, hbig], ?_, ?_⟩
  · calc (1600 * w) / max w h
        ≤ (1600 * max w h) / max w h :=
          Nat.div_le_div_right (Nat.mul_le_mul_left _ (le_max_left w h))
      _ = 1600 := by rw [Nat.mul_comm]; exact Nat.mul_div_cancel_left 1600 hm
  · calc (1600 * h) / max w h
        ≤ (1600 * max w h) / max w h :=
          Nat.div_le_div_right (Nat.mul_le_mul_left _ (le_max_right w h))
      _ = 1600 := by rw [Nat.mul_comm]; exact Nat.mul_div_cancel_left 1600 hm

/-- Witness for `downscale_dims_floor`: a 3200 × 1000 image resizes to
1600 × 500, within the 1600 bound. -/
theorem downscale_dims_floor_witness :
    (downscale_image ⟨some (3200, 1000), Bytes.raw 0⟩).1.decoded = some (1600, 500) ∧
    (1600 * 3200) / max 3200 1000 ≤ 1600 := by
  have h := downscale_dims_floor ⟨some (3200, 1000), Bytes.raw 0⟩ 3200 1000 rfl (by decide)
  exact ⟨h.1.trans (by decide), h.2.1⟩

/-- C8: a successfully decoded image with both dimensions at most 1600 keeps
its pixel dimensions through normalization; the stored bytes are either
untouched or replaced by the quality-85 three-channel re-encoding of the same
image. -/
theorem downscale_small_noop (img : StoredImage) (w h : Nat)
    (hdec : img.decoded = some (w, h)) (hw : w ≤ 1600) (hh : h ≤ 1600) :
    (downscale_image img).1.decoded = some (w, h) ∧
    ((downscale_image img).1.bytes = img.bytes ∨
     (downscale_image img).1.bytes = Bytes.jpeg85 w h img.bytes) := by
  have hle : ¬ 1600 < max w h := not_lt.mpr (max_le hw hh)
  by_cases h0 : max w h = 0
  · constructor
    · simp [downscale_image, hdec, h0]
    · left; simp [downscale_image, hdec, h0]
  · constructor
    · simp [downscale_image, hdec, h0, hle]
    · right; simp [downscale_image, hdec, h0, hle]

/-- Witness for `downscale_small_noop`: an 800 × 600 image keeps its
dimensions. -/
theorem downscale_small_noop_witness :
    (downscale_image ⟨some (800, 600), Bytes.raw 3⟩).1.decoded = some (800, 600) :=
  (downscale_small_noop ⟨some (800, 600), Bytes.raw 3⟩ 800 600 rfl (by decide) (by decide)).1

end OCRApp
